import Mathlib

/-!
Shallow embedding of the recording-popup controller of the dictara
repository (`src/src/components/recording/RecordingPopup.tsx`).

The component keeps six pieces of React state (`recording`, `transcribing`,
`error`, `audioLevel`, `smoothedLevel`, `elapsedMs`) plus three refs
(`animationFrameRef`, `startTimeRef`, `timerIntervalRef`).  Backend events
(`recording-started`, `recording-transcribing`, `recording-stopped`,
`recording-cancelled`, `recording-error`), the audio-level channel, the
user-triggered command handlers and the countdown-interval callback are
embedded as a step function on an explicit state record.  JS `setInterval`
handles are modelled by an id counter together with the list of currently
live intervals, so that leaking a duplicate interval would be observable.
Time (`Date.now()`) is an integer parameter of the inputs that read it.
-/

namespace Dictara

/-- Payload of the `recording-error` event
(interface `RecordingErrorPayload` in `RecordingPopup.tsx`). -/
structure RecordingErrorPayload where
  error_type : String
  error_message : String
  user_message : String
  can_retry : Bool
  audio_file_path : Option String
  deriving DecidableEq

/-- The Session State of the spec: the `recording`, `transcribing` and
`error` React state variables. -/
structure SessionState where
  recording : Bool
  transcribing : Bool
  error : Option RecordingErrorPayload
  deriving DecidableEq

/-- Full local state of the popup component: the session variables plus the
audio level, the displayed remaining milliseconds, the timer refs, and a
model of the JS runtime's live `setInterval` handles (`intervals`) with a
fresh-handle counter (`nextId`). -/
structure PopupState where
  recording : Bool
  transcribing : Bool
  error : Option RecordingErrorPayload
  audioLevel : ℚ
  elapsedMs : ℤ
  startTime : Option ℤ
  timerIntervalRef : Option ℕ
  intervals : List ℕ
  nextId : ℕ
  deriving DecidableEq

/-- Projection of the popup state onto the Session State. -/
def PopupState.session (s : PopupState) : SessionState :=
  { recording := s.recording, transcribing := s.transcribing, error := s.error }

/-- `MAX_RECORDING_DURATION_MS = 10 * 60 * 1000` in `RecordingPopup.tsx`. -/
def MAX_RECORDING_DURATION_MS : ℤ := 10 * 60 * 1000

/-- `cleanupTimer` in `RecordingPopup.tsx`: if an interval handle is stored,
clear that interval and drop the handle; then unset the start time and reset
the displayed milliseconds to 0. -/
def cleanupTimer (s : PopupState) : PopupState :=
  let s1 :=
    match s.timerIntervalRef with
    | some id => { s with intervals := s.intervals.erase id, timerIntervalRef := none }
    | none => s
  { s1 with startTime := none, elapsedMs := 0 }

/-- `startTimer` in `RecordingPopup.tsx`: first `cleanupTimer`, then record
`Date.now()` as the start time, initialise the display to the maximum
duration, and register a fresh countdown interval. -/
def startTimer (s : PopupState) (now : ℤ) : PopupState :=
  let s1 := cleanupTimer s
  { s1 with
    startTime := some now
    elapsedMs := MAX_RECORDING_DURATION_MS
    intervals := s1.intervals ++ [s1.nextId]
    timerIntervalRef := some s1.nextId
    nextId := s1.nextId + 1 }

/-- Body of the interval callback registered by `startTimer`: return early if
`startTimeRef.current === undefined`; otherwise compute
`remaining = max(0, MAX_RECORDING_DURATION_MS - (now - start))`, store it,
and when `remaining <= 0` run `cleanupTimer` and then `handleStop`.  The
boolean records whether the auto-stop `handleStop()` call fired. -/
def timerTick (s : PopupState) (now : ℤ) : PopupState × Bool :=
  match s.startTime with
  | none => (s, false)
  | some st =>
    let elapsed := now - st
    let remaining := max 0 (MAX_RECORDING_DURATION_MS - elapsed)
    let s1 := { s with elapsedMs := remaining }
    if remaining ≤ 0 then (cleanupTimer s1, true) else (s1, false)

/-- Backend commands that the popup can invoke. -/
inductive Cmd where
  | cancelRecording
  | stopRecording
  | retryTranscription
  | dismissError
  | resizePopupForError
  deriving DecidableEq

/-- Inputs processed by the component: the five lifecycle events, an
audio-level push, the four user actions (each carrying whether the backend
call rejects), and an invocation of the countdown-interval callback. -/
inductive Input where
  | evStarted (now : ℤ)
  | evTranscribing
  | evStopped
  | evCancelled
  | evError (p : RecordingErrorPayload)
  | evAudioLevel (level : ℚ)
  | actCancel (rejects : Bool)
  | actStop (rejects : Bool)
  | actRetry (rejects : Bool)
  | actDismiss (rejects : Bool)
  | tick (now : ℤ)
  deriving DecidableEq

/-- One step of the controller, translated handler by handler from
`RecordingPopup.tsx`; returns the new state and the backend commands issued.
The `rejects` flag of a user action only changes what is logged in the
source (`console.error` in the catch block), so it does not influence the
state: `handleCancel`, `handleStop` and `handleDismiss` touch no state at
all, while `handleRetry` runs `setError(null); setTranscribing(true)` before
awaiting the call.  The `recording-error` handler sets the error payload and
requests `resizePopupForError`; it contains no `cleanupTimer` call. -/
def step (s : PopupState) : Input → PopupState × List Cmd
  | .evStarted now =>
      (startTimer { s with recording := true, transcribing := false, error := none } now, [])
  | .evTranscribing =>
      (cleanupTimer { s with recording := false, transcribing := true }, [])
  | .evStopped =>
      (cleanupTimer { s with recording := true, transcribing := false }, [])
  | .evCancelled =>
      (cleanupTimer { s with recording := true, transcribing := false }, [])
  | .evError p =>
      ({ s with recording := false, transcribing := false, error := some p },
       [Cmd.resizePopupForError])
  | .evAudioLevel level => ({ s with audioLevel := level }, [])
  | .actCancel _ => (s, [Cmd.cancelRecording])
  | .actStop _ => (s, [Cmd.stopRecording])
  | .actRetry _ =>
      ({ s with error := none, transcribing := true }, [Cmd.retryTranscription])
  | .actDismiss _ => (s, [Cmd.dismissError])
  | .tick now =>
      let r := timerTick s now
      (r.1, if r.2 then [Cmd.stopRecording] else [])

/-- Initial component state: `useState(true)` for `recording`,
`useState(false)` for `transcribing`, `useState<...|null>(null)` for
`error`, levels and elapsed milliseconds 0, no timer, no live intervals. -/
def initState : PopupState :=
  { recording := true, transcribing := false, error := none, audioLevel := 0,
    elapsedMs := 0, startTime := none, timerIntervalRef := none,
    intervals := [], nextId := 0 }

/-- Process a list of inputs, threading the state. -/
def run (s : PopupState) : List Input → PopupState
  | [] => s
  | i :: rest => run (step s i).1 rest

/-- Number of auto-stop `handleStop()` invocations over a list of
interval-callback invocations at the given times. -/
def countFires (s : PopupState) : List ℤ → ℕ
  | [] => 0
  | t :: ts =>
    let r := timerTick s t
    (if r.2 then 1 else 0) + countFires r.1 ts

/-- The five lifecycle events (`recording-*`). -/
def Input.isTerminalEvent : Input → Bool
  | .evStarted _ => true
  | .evTranscribing => true
  | .evStopped => true
  | .evCancelled => true
  | .evError _ => true
  | _ => false

/-- An audio-level channel push. -/
def Input.isAudioLevel : Input → Bool
  | .evAudioLevel _ => true
  | _ => false

/-- A backend-delivered input: a lifecycle event or an audio-level push. -/
def Input.isBackendEvent (i : Input) : Bool := i.isTerminalEvent || i.isAudioLevel

/-- JSX guard of the error view: `error && ...`. -/
def showsError (s : PopupState) : Bool := s.error.isSome

/-- JSX guard of the transcribing view: `transcribing && !error && ...`. -/
def showsTranscribing (s : PopupState) : Bool := s.transcribing && !s.error.isSome

/-- JSX guard of the recording view: `recording && !error && !transcribing`. -/
def showsRecording (s : PopupState) : Bool :=
  s.recording && !s.error.isSome && !s.transcribing

/-- How many of the three views are rendered at once. -/
def viewCount (s : PopupState) : ℕ :=
  (if showsError s then 1 else 0) + (if showsTranscribing s then 1 else 0) +
    (if showsRecording s then 1 else 0)

/-- `String.prototype.padStart(n, c)`: prepend copies of `c` until the
length is at least `n`. -/
def padStart (s : String) (n : ℕ) (c : Char) : String :=
  String.mk (List.replicate (n - s.length) c) ++ s

/-- `formatTime` in `RecordingPopup.tsx`: milliseconds to `MM:SS` by integer
division and modulo, each field zero-padded to width 2. -/
def formatTime (ms : ℕ) : String :=
  let totalSeconds := ms / 1000
  let minutes := totalSeconds / 60
  let seconds := totalSeconds % 60
  padStart (toString minutes) 2 '0' ++ ":" ++ padStart (toString seconds) 2 '0'

/-- The minutes field of `formatTime`. -/
def minutesStr (ms : ℕ) : String := padStart (toString (ms / 1000 / 60)) 2 '0'

/-- The seconds field of `formatTime`. -/
def secondsStr (ms : ℕ) : String := padStart (toString (ms / 1000 % 60)) 2 '0'

/-- One animation-frame update of the smoothed audio level (the `animate`
closure): `speed = diff > 0 ? 0.3 : 0.15`, `current + diff * speed`. -/
def smoothStep (raw current : ℚ) : ℚ :=
  let diff := raw - current
  let speed : ℚ := if 0 < diff then 3/10 else 3/20
  current + diff * speed

/-- Smoothed level after `n` animation ticks when the raw level has jumped
from 0.0 to 1.0 and the smoothed level starts at 0. -/
def smoothedRise : ℕ → ℚ
  | 0 => 0
  | n + 1 => smoothStep 1 (smoothedRise n)

/-- A concrete error payload, used for concrete evaluations. -/
def samplePayload : RecordingErrorPayload :=
  { error_type := "recording", error_message := "device lost",
    user_message := "Microphone disconnected", can_retry := true,
    audio_file_path := none }

/-- Claim C8: formatTime converts milliseconds to an MM:SS string by integer
division and modulo: formatTime 0 = "00:00", formatTime 65000 = "01:05",
and formatTime 600000 = "10:00". -/
theorem c8_formatTime_examples :
    formatTime 0 = "00:00" ∧ formatTime 65000 = "01:05" ∧
      formatTime 600000 = "10:00" :=
  ⟨rfl, rfl, rfl⟩

lemma padStart_length (s : String) (n : ℕ) (c : Char) :
    (padStart s n c).length = (n - s.length) + s.length := by
  simp [padStart, String.length_append]

lemma pad2_length_of_lt_60 : ∀ v : ℕ, v < 60 →
    (padStart (toString v) 2 '0').length = 2 := by decide

/-- Claim C10: for every non-negative millisecond input the seconds field of
formatTime is in the range "00".."59" (its value is `ms / 1000 % 60 < 60`
and it is padded to exactly two characters), the minutes field is zero-padded
to at least two digits but never truncated or capped, and 6000000 ms renders
as the six-character string "100:00". -/
theorem c10_formatTime_ranges (n : ℕ) :
    n / 1000 % 60 < 60 ∧
    (secondsStr n).length = 2 ∧
    2 ≤ (minutesStr n).length ∧
    formatTime n = minutesStr n ++ ":" ++ secondsStr n ∧
    formatTime 6000000 = "100:00" ∧
    5 < (formatTime 6000000).length := by
  have hsec : n / 1000 % 60 < 60 := Nat.mod_lt _ (by norm_num)
  refine ⟨hsec, pad2_length_of_lt_60 _ hsec, ?_, rfl, rfl, by decide⟩
  have h := padStart_length (toString (n / 1000 / 60)) 2 '0'
  unfold minutesStr
  omega

/-- Claim C7 counterexample: with an error payload present, the retry handler
whose backend call rejects still changes the Session State (it clears the
error and sets `transcribing` before awaiting the call), so not every
user-triggered command with a rejecting backend call leaves the Session
State unchanged. -/
theorem c7_counterexample :
    (step (run initState [Input.evError samplePayload]) (Input.actRetry true)).1.session ≠
      (run initState [Input.evError samplePayload]).session := by decide

/-- Claim C7 (amended): a rejected cancel, stop or dismiss call leaves the
whole component state unchanged (the catch block only logs); retry updates
the Session State (clears error, sets transcribing) before the call, and a
rejected retry produces exactly the same state as a successful one — in
particular no error state is fabricated from the rejection (the error field
is none after retry regardless of the outcome). -/
theorem c7_command_rejection (s : PopupState) (rejects : Bool) :
    (step s (Input.actCancel rejects)).1 = s ∧
    (step s (Input.actStop rejects)).1 = s ∧
    (step s (Input.actDismiss rejects)).1 = s ∧
    (step s (Input.actRetry rejects)).1 = (step s (Input.actRetry false)).1 ∧
    (step s (Input.actRetry rejects)).1.error = none :=
  ⟨rfl, rfl, rfl, rfl, rfl⟩

/-- Claim C2 counterexample: after `recording-started` at time 0 followed by
`recording-error`, the countdown interval handle and the start time are
still set (the error handler contains no `cleanupTimer` call), and the
interval callback invoked at time 600000 fires the auto-stop `stop()` — an
auto-stop from a timer started before the error. -/
theorem c2_counterexample :
    (run initState [Input.evStarted 0, Input.evError samplePayload]).timerIntervalRef
      = some 0 ∧
    (run initState [Input.evStarted 0, Input.evError samplePayload]).startTime = some 0 ∧
    (timerTick (run initState [Input.evStarted 0, Input.evError samplePayload]) 600000).2
      = true :=
  ⟨by decide, by decide, by decide⟩

/-- Claim C2 (amended): on `recording-error` the controller enters ErrorState
with the event payload and requests the popup resize, but it does not stop
or reset the Countdown Timer: the interval handle, the start time, the
displayed remaining milliseconds and the set of live intervals are all left
exactly as they were, so a countdown started before the error stays live and
its auto-stop can still fire. -/
theorem c2_error_handler (s : PopupState) (p : RecordingErrorPayload) :
    (step s (Input.evError p)).1.recording = false ∧
    (step s (Input.evError p)).1.transcribing = false ∧
    (step s (Input.evError p)).1.error = some p ∧
    (step s (Input.evError p)).2 = [Cmd.resizePopupForError] ∧
    (step s (Input.evError p)).1.timerIntervalRef = s.timerIntervalRef ∧
    (step s (Input.evError p)).1.startTime = s.startTime ∧
    (step s (Input.evError p)).1.elapsedMs = s.elapsedMs ∧
    (step s (Input.evError p)).1.intervals = s.intervals :=
  ⟨rfl, rfl, rfl, rfl, rfl, rfl, rfl, rfl⟩

lemma cleanupTimer_session (s : PopupState) : (cleanupTimer s).session = s.session := by
  rcases s with ⟨r, tr, e, a, el, st, ref, ints, n⟩
  rcases ref with _ | id <;> rfl

lemma startTimer_session (s : PopupState) (t : ℤ) :
    (startTimer s t).session = s.session :=
  cleanupTimer_session s

lemma startTimer_recording (s : PopupState) (t : ℤ) :
    (startTimer s t).recording = s.recording :=
  congrArg SessionState.recording (startTimer_session s t)

lemma startTimer_transcribing (s : PopupState) (t : ℤ) :
    (startTimer s t).transcribing = s.transcribing :=
  congrArg SessionState.transcribing (startTimer_session s t)

lemma startTimer_error (s : PopupState) (t : ℤ) :
    (startTimer s t).error = s.error :=
  congrArg SessionState.error (startTimer_session s t)

lemma timerTick_session (s : PopupState) (t : ℤ) :
    (timerTick s t).1.session = s.session := by
  rcases s with ⟨r, tr, e, a, el, st, ref, ints, n⟩
  rcases st with _ | st0
  · rfl
  · simp only [timerTick]
    split
    · exact cleanupTimer_session _
    · rfl

lemma cleanupTimer_recording (s : PopupState) :
    (cleanupTimer s).recording = s.recording :=
  congrArg SessionState.recording (cleanupTimer_session s)

lemma cleanupTimer_transcribing (s : PopupState) :
    (cleanupTimer s).transcribing = s.transcribing :=
  congrArg SessionState.transcribing (cleanupTimer_session s)

lemma cleanupTimer_error (s : PopupState) :
    (cleanupTimer s).error = s.error :=
  congrArg SessionState.error (cleanupTimer_session s)

/-- One controller step never changes the Session State except through the
five lifecycle-event handlers and the retry handler; as a function of the
prior Session State it is fully determined (same session in, same session
out) for every backend-delivered input. -/
lemma step_session_congr (s1 s2 : PopupState) (i : Input)
    (hs : s1.session = s2.session) (hi : Input.isBackendEvent i = true) :
    (step s1 i).1.session = (step s2 i).1.session := by
  have he : s1.error = s2.error := congrArg SessionState.error hs
  cases i with
  | evStarted t =>
      have h1 : (step s1 (Input.evStarted t)).1.session =
          SessionState.mk true false none := startTimer_session _ t
      have h2 : (step s2 (Input.evStarted t)).1.session =
          SessionState.mk true false none := startTimer_session _ t
      rw [h1, h2]
  | evTranscribing =>
      have h1 : (step s1 Input.evTranscribing).1.session =
          SessionState.mk false true s1.error := cleanupTimer_session _
      have h2 : (step s2 Input.evTranscribing).1.session =
          SessionState.mk false true s2.error := cleanupTimer_session _
      rw [h1, h2, he]
  | evStopped =>
      have h1 : (step s1 Input.evStopped).1.session =
          SessionState.mk true false s1.error := cleanupTimer_session _
      have h2 : (step s2 Input.evStopped).1.session =
          SessionState.mk true false s2.error := cleanupTimer_session _
      rw [h1, h2, he]
  | evCancelled =>
      have h1 : (step s1 Input.evCancelled).1.session =
          SessionState.mk true false s1.error := cleanupTimer_session _
      have h2 : (step s2 Input.evCancelled).1.session =
          SessionState.mk true false s2.error := cleanupTimer_session _
      rw [h1, h2, he]
  | evError p => rfl
  | evAudioLevel level => exact hs
  | actCancel b => simp [Input.isBackendEvent, Input.isTerminalEvent, Input.isAudioLevel] at hi
  | actStop b => simp [Input.isBackendEvent, Input.isTerminalEvent, Input.isAudioLevel] at hi
  | actRetry b => simp [Input.isBackendEvent, Input.isTerminalEvent, Input.isAudioLevel] at hi
  | actDismiss b => simp [Input.isBackendEvent, Input.isTerminalEvent, Input.isAudioLevel] at hi
  | tick t => simp [Input.isBackendEvent, Input.isTerminalEvent, Input.isAudioLevel] at hi

lemma run_session_congr (l : List Input)
    (hl : ∀ i ∈ l, Input.isBackendEvent i = true) :
    ∀ s1 s2 : PopupState, s1.session = s2.session →
      (run s1 l).session = (run s2 l).session := by
  induction l with
  | nil => intro s1 s2 h; exact h
  | cons i rest ih =>
      intro s1 s2 h
      have hi := hl i (List.mem_cons_self i rest)
      have hrest := fun j hj => hl j (List.mem_cons_of_mem i hj)
      exact ih hrest _ _ (step_session_congr s1 s2 i h hi)

lemma audio_step_session (s : PopupState) (i : Input)
    (h : Input.isAudioLevel i = true) : (step s i).1.session = s.session := by
  cases i with
  | evAudioLevel level => rfl
  | evStarted t => simp [Input.isAudioLevel] at h
  | evTranscribing => simp [Input.isAudioLevel] at h
  | evStopped => simp [Input.isAudioLevel] at h
  | evCancelled => simp [Input.isAudioLevel] at h
  | evError p => simp [Input.isAudioLevel] at h
  | actCancel b => simp [Input.isAudioLevel] at h
  | actStop b => simp [Input.isAudioLevel] at h
  | actRetry b => simp [Input.isAudioLevel] at h
  | actDismiss b => simp [Input.isAudioLevel] at h
  | tick t => simp [Input.isAudioLevel] at h

/-- The Session State after a sequence of backend-delivered inputs equals the
one after the same sequence with every audio-level push removed. -/
lemma run_filter_terminal (l : List Input)
    (hl : ∀ i ∈ l, Input.isBackendEvent i = true) :
    ∀ s : PopupState,
      (run s l).session = (run s (l.filter Input.isTerminalEvent)).session := by
  induction l with
  | nil => intro s; rfl
  | cons i rest ih =>
      intro s
      have hi := hl i (List.mem_cons_self i rest)
      have hrest := fun j hj => hl j (List.mem_cons_of_mem i hj)
      by_cases ht : Input.isTerminalEvent i = true
      · rw [show (i :: rest).filter Input.isTerminalEvent
              = i :: rest.filter Input.isTerminalEvent by simp [List.filter_cons, ht]]
        exact ih hrest (step s i).1
      · have hT : Input.isTerminalEvent i = false := by
          cases h2 : Input.isTerminalEvent i
          · rfl
          · exact absurd h2 ht
        have ha : Input.isAudioLevel i = true := by
          unfold Input.isBackendEvent at hi
          rw [hT] at hi
          simpa using hi
        rw [show (i :: rest).filter Input.isTerminalEvent
              = rest.filter Input.isTerminalEvent by
            simp [List.filter_cons, hT]]
        calc (run s (i :: rest)).session
            = (run (step s i).1 rest).session := rfl
          _ = (run s rest).session :=
              run_session_congr rest hrest _ _ (audio_step_session s i ha)
          _ = (run s (rest.filter Input.isTerminalEvent)).session := ih hrest s

/-- Claim C1 counterexample: the sequences
`[recording-error, recording-stopped]` and `[recording-stopped]` end in the
same last terminal event, yet leave different Session States — the
`recording-stopped` handler preserves a previously stored error payload
instead of restoring the state mandated by `recording-stopped` alone.  So
the Session State after processing is not a function of the last terminal
event received. -/
theorem c1_counterexample :
    Input.isTerminalEvent Input.evStopped = true ∧
    (run initState [Input.evError samplePayload, Input.evStopped]).session ≠
      (run initState [Input.evStopped]).session ∧
    (run initState [Input.evError samplePayload, Input.evStopped]).session.error
      = some samplePayload :=
  ⟨rfl, by decide, rfl⟩

/-- Claim C1 (amended): audio-level pushes never change the Session State —
for any sequence of backend-delivered inputs, the Session State after
processing equals the one after the subsequence of terminal events alone —
and each terminal-event handler writes the recording/transcribing flags to
values determined by the event itself; only the error field can survive a
`recording-stopped`, `recording-cancelled` or `recording-transcribing`
handler from before, so the full Session State is determined by the terminal
subsequence rather than by the last terminal event. -/
theorem c1_audio_level_independence (s : PopupState) (l : List Input)
    (hl : ∀ i ∈ l, Input.isBackendEvent i = true) :
    (run s l).session = (run s (l.filter Input.isTerminalEvent)).session ∧
    (∀ s1 s2 : PopupState, ∀ i : Input, Input.isTerminalEvent i = true →
      (step s1 i).1.recording = (step s2 i).1.recording ∧
      (step s1 i).1.transcribing = (step s2 i).1.transcribing) := by
  refine ⟨run_filter_terminal l hl s, ?_⟩
  intro s1 s2 i hi
  cases i with
  | evStarted t =>
      have h1 : (step s1 (Input.evStarted t)).1.session =
          SessionState.mk true false none := startTimer_session _ t
      have h2 : (step s2 (Input.evStarted t)).1.session =
          SessionState.mk true false none := startTimer_session _ t
      exact ⟨(congrArg SessionState.recording h1).trans
          (congrArg SessionState.recording h2).symm,
        (congrArg SessionState.transcribing h1).trans
          (congrArg SessionState.transcribing h2).symm⟩
  | evTranscribing =>
      have h1 : (step s1 Input.evTranscribing).1.session =
          SessionState.mk false true s1.error := cleanupTimer_session _
      have h2 : (step s2 Input.evTranscribing).1.session =
          SessionState.mk false true s2.error := cleanupTimer_session _
      exact ⟨(congrArg SessionState.recording h1).trans
          (congrArg SessionState.recording h2).symm,
        (congrArg SessionState.transcribing h1).trans
          (congrArg SessionState.transcribing h2).symm⟩
  | evStopped =>
      have h1 : (step s1 Input.evStopped).1.session =
          SessionState.mk true false s1.error := cleanupTimer_session _
      have h2 : (step s2 Input.evStopped).1.session =
          SessionState.mk true false s2.error := cleanupTimer_session _
      exact ⟨(congrArg SessionState.recording h1).trans
          (congrArg SessionState.recording h2).symm,
        (congrArg SessionState.transcribing h1).trans
          (congrArg SessionState.transcribing h2).symm⟩
  | evCancelled =>
      have h1 : (step s1 Input.evCancelled).1.session =
          SessionState.mk true false s1.error := cleanupTimer_session _
      have h2 : (step s2 Input.evCancelled).1.session =
          SessionState.mk true false s2.error := cleanupTimer_session _
      exact ⟨(congrArg SessionState.recording h1).trans
          (congrArg SessionState.recording h2).symm,
        (congrArg SessionState.transcribing h1).trans
          (congrArg SessionState.transcribing h2).symm⟩
  | evError p => exact ⟨rfl, rfl⟩
  | evAudioLevel level => simp [Input.isTerminalEvent] at hi
  | actCancel b => simp [Input.isTerminalEvent] at hi
  | actStop b => simp [Input.isTerminalEvent] at hi
  | actRetry b => simp [Input.isTerminalEvent] at hi
  | actDismiss b => simp [Input.isTerminalEvent] at hi
  | tick t => simp [Input.isTerminalEvent] at hi

/-- A witness sequence for the audio-level-independence theorem: two levels
interleaved around a start and a stop. -/
theorem c1_audio_level_independence_witness :
    (run initState [Input.evAudioLevel (1/2), Input.evStarted 0,
        Input.evAudioLevel 1, Input.evStopped]).session =
      (run initState ([Input.evAudioLevel (1/2), Input.evStarted 0,
        Input.evAudioLevel 1, Input.evStopped].filter Input.isTerminalEvent)).session :=
  (c1_audio_level_independence initState
    [Input.evAudioLevel (1/2), Input.evStarted 0, Input.evAudioLevel 1,
      Input.evStopped] (by decide)).1

/-- Reachability invariant: whenever the error field is empty, at least one
of the recording/transcribing flags is set, so the blank-popup combination
(recording and transcribing both false with no error) is unreachable. -/
def SessionInv (s : PopupState) : Prop :=
  s.error = none → (s.recording = true ∨ s.transcribing = true)

lemma timerTick_step_eq (s : PopupState) (t : ℤ) :
    (step s (Input.tick t)).1 = (timerTick s t).1 := rfl

lemma sessionInv_step (s : PopupState) (i : Input) (h : SessionInv s) :
    SessionInv (step s i).1 := by
  cases i with
  | evStarted t =>
      intro _
      left
      have h1 : (step s (Input.evStarted t)).1.session =
          SessionState.mk true false none := startTimer_session _ t
      exact congrArg SessionState.recording h1
  | evTranscribing =>
      intro _
      right
      have h1 : (step s Input.evTranscribing).1.session =
          SessionState.mk false true s.error := cleanupTimer_session _
      exact congrArg SessionState.transcribing h1
  | evStopped =>
      intro _
      left
      have h1 : (step s Input.evStopped).1.session =
          SessionState.mk true false s.error := cleanupTimer_session _
      exact congrArg SessionState.recording h1
  | evCancelled =>
      intro _
      left
      have h1 : (step s Input.evCancelled).1.session =
          SessionState.mk true false s.error := cleanupTimer_session _
      exact congrArg SessionState.recording h1
  | evError p =>
      intro hc
      exact absurd hc (Option.some_ne_none p)
  | evAudioLevel level => exact h
  | actCancel b => exact h
  | actStop b => exact h
  | actRetry b =>
      intro _
      right
      rfl
  | actDismiss b => exact h
  | tick t =>
      intro hc
      have h1 : (step s (Input.tick t)).1.session = s.session := timerTick_session s t
      have he : s.error = none := (congrArg SessionState.error h1).symm.trans hc
      rcases h he with hr | htr
      · exact Or.inl ((congrArg SessionState.recording h1).trans hr)
      · exact Or.inr ((congrArg SessionState.transcribing h1).trans htr)

lemma sessionInv_run (l : List Input) : ∀ s : PopupState, SessionInv s →
    SessionInv (run s l) := by
  induction l with
  | nil => intro s h; exact h
  | cons i rest ih => intro s h; exact ih _ (sessionInv_step s i h)

lemma viewCount_eq_one_of_inv (s : PopupState) (h : SessionInv s) :
    viewCount s = 1 := by
  unfold viewCount showsError showsTranscribing showsRecording
  unfold SessionInv at h
  rcases he : s.error with _ | p
  · rcases h he with hr | htr
    · rcases htr2 : s.transcribing
      · simp [he, hr, htr2]
      · simp [he, htr2]
    · simp [he, htr]
  · simp [he]

/-- Claim C3 counterexample: after `recording-error` followed by
`recording-stopped` the error fields are not cleared (the stopped handler
sets only the recording/transcribing flags), so `recording = true` holds
simultaneously with a stored error payload; likewise a dismiss leaves the
error payload in place (the dismiss handler changes no local state). -/
theorem c3_counterexample :
    (run initState [Input.evError samplePayload, Input.evStopped]).recording = true ∧
    (run initState [Input.evError samplePayload, Input.evStopped]).error
      = some samplePayload ∧
    (run initState [Input.evError samplePayload, Input.actDismiss false]).error
      = some samplePayload :=
  ⟨by decide, by decide, by decide⟩

/-- Claim C3 (amended): at every reachable state the popup renders exactly
one of the error, transcribing and recording views — the JSX guards are
mutually exclusive and the blank combination is unreachable — but
transitions do not clear the error field except through `recording-started`
or retry: `recording-stopped`, `recording-cancelled` and dismiss leave a
stored error payload in place, and the error view keeps priority over the
others while it is set. -/
theorem c3_exactly_one_view (l : List Input) :
    viewCount (run initState l) = 1 :=
  viewCount_eq_one_of_inv _ (sessionInv_run l initState (fun _ => Or.inl rfl))

lemma cleanupTimer_startTime (s : PopupState) :
    (cleanupTimer s).startTime = none := by
  rcases s with ⟨r, tr, e, a, el, st, ref, ints, n⟩
  rcases ref with _ | id <;> rfl

lemma cleanupTimer_ref (s : PopupState) :
    (cleanupTimer s).timerIntervalRef = none := by
  rcases s with ⟨r, tr, e, a, el, st, ref, ints, n⟩
  rcases ref with _ | id <;> rfl

lemma timerTick_none (s : PopupState) (t : ℤ) (h : s.startTime = none) :
    timerTick s t = (s, false) := by
  unfold timerTick
  rw [h]

lemma timerTick_some (s : PopupState) (t st : ℤ) (h : s.startTime = some st) :
    timerTick s t =
      if max 0 (MAX_RECORDING_DURATION_MS - (t - st)) ≤ 0 then
        (cleanupTimer
          { s with elapsedMs := max 0 (MAX_RECORDING_DURATION_MS - (t - st)) }, true)
      else ({ s with elapsedMs := max 0 (MAX_RECORDING_DURATION_MS - (t - st)) }, false) := by
  unfold timerTick
  rw [h]

lemma countFires_cons (s : PopupState) (t : ℤ) (ts : List ℤ) :
    countFires s (t :: ts) =
      (if (timerTick s t).2 then 1 else 0) + countFires (timerTick s t).1 ts := rfl

lemma countFires_of_none (ts : List ℤ) : ∀ s : PopupState, s.startTime = none →
    countFires s ts = 0 := by
  induction ts with
  | nil => intro s _; rfl
  | cons t ts ih =>
      intro s h
      rw [countFires_cons, timerTick_none s t h]
      simpa using ih s h

lemma timerTick_fires_iff (s : PopupState) (t st : ℤ) (h : s.startTime = some st) :
    ((timerTick s t).2 = true ↔ MAX_RECORDING_DURATION_MS + st ≤ t) := by
  rw [timerTick_some s t st h]
  by_cases hle : max 0 (MAX_RECORDING_DURATION_MS - (t - st)) ≤ 0
  · rw [if_pos hle]
    have hM : MAX_RECORDING_DURATION_MS + st ≤ t := by
      have h2 := max_le_iff.mp hle
      omega
    simp [hM]
  · rw [if_neg hle]
    have hM : ¬ MAX_RECORDING_DURATION_MS + st ≤ t := by
      intro hc
      exact hle (max_le_iff.mpr ⟨le_rfl, by omega⟩)
    simp [hM]

lemma timerTick_fired_state (s : PopupState) (t : ℤ)
    (h : (timerTick s t).2 = true) :
    (timerTick s t).1.startTime = none ∧
      (timerTick s t).1.timerIntervalRef = none := by
  rcases hst : s.startTime with _ | st
  · rw [timerTick_none s t hst] at h
    simp at h
  · rw [timerTick_some s t st hst] at h ⊢
    by_cases hle : max 0 (MAX_RECORDING_DURATION_MS - (t - st)) ≤ 0
    · rw [if_pos hle]
      exact ⟨cleanupTimer_startTime _, cleanupTimer_ref _⟩
    · rw [if_neg hle] at h
      simp at h

lemma timerTick_not_fired (s : PopupState) (t st : ℤ) (h : s.startTime = some st)
    (h2 : (timerTick s t).2 = false) :
    (timerTick s t).1.startTime = some st ∧
      ¬ MAX_RECORDING_DURATION_MS + st ≤ t := by
  rw [timerTick_some s t st h] at h2 ⊢
  by_cases hle : max 0 (MAX_RECORDING_DURATION_MS - (t - st)) ≤ 0
  · rw [if_pos hle] at h2
    simp at h2
  · rw [if_neg hle]
    refine ⟨h, ?_⟩
    intro hc
    exact hle (max_le_iff.mpr ⟨le_rfl, by omega⟩)

lemma countFires_le_one (ts : List ℤ) : ∀ s : PopupState, countFires s ts ≤ 1 := by
  induction ts with
  | nil => intro s; exact Nat.zero_le 1
  | cons t ts ih =>
      intro s
      rw [countFires_cons]
      cases hf : (timerTick s t).2
      · simpa [hf] using ih (timerTick s t).1
      · have h0 := countFires_of_none ts (timerTick s t).1 (timerTick_fired_state s t hf).1
        simp [hf, h0]

lemma countFires_eq_one (ts : List ℤ) : ∀ (s : PopupState) (st : ℤ),
    s.startTime = some st →
    (∃ t ∈ ts, MAX_RECORDING_DURATION_MS + st ≤ t) → countFires s ts = 1 := by
  induction ts with
  | nil =>
      rintro s st h ⟨t, ht, _⟩
      simp at ht
  | cons t ts ih =>
      rintro s st h ⟨t', ht', hle'⟩
      rw [countFires_cons]
      cases hf : (timerTick s t).2
      · have hnf := timerTick_not_fired s t st h hf
        rcases List.mem_cons.mp ht' with rfl | hmem
        · exact absurd hle' hnf.2
        · simpa [hf] using ih (timerTick s t).1 st hnf.1 ⟨t', hmem, hle'⟩
      · have h0 := countFires_of_none ts (timerTick s t).1 (timerTick_fired_state s t hf).1
        simp [hf, h0]

/-- Claim C4: a countdown started by `recording-started` with
`MAX_RECORDING_DURATION_MS = 600000` fires the auto-stop `stop()` exactly
once as soon as some callback invocation happens at or after expiry, never
more than once over any sequence of callback invocations (even repeated
ones after reaching zero), and whenever the auto-stop fires the timer has
been torn down (interval handle and start time cleared) before `stop()` is
invoked. -/
theorem c4_auto_stop_exactly_once (ts : List ℤ) :
    countFires (run initState [Input.evStarted 0]) ts ≤ 1 ∧
    ((∃ t ∈ ts, (600000 : ℤ) ≤ t) →
      countFires (run initState [Input.evStarted 0]) ts = 1) ∧
    (∀ (s : PopupState) (t : ℤ), (timerTick s t).2 = true →
      (timerTick s t).1.timerIntervalRef = none ∧
      (timerTick s t).1.startTime = none) := by
  refine ⟨countFires_le_one ts _, ?_, ?_⟩
  · rintro ⟨t, ht, hle⟩
    have hst : (run initState [Input.evStarted 0]).startTime = some 0 := by decide
    refine countFires_eq_one ts _ 0 hst ⟨t, ht, ?_⟩
    unfold MAX_RECORDING_DURATION_MS
    omega
  · intro s t h
    exact ⟨(timerTick_fired_state s t h).2, (timerTick_fired_state s t h).1⟩

/-- Witness for C4: the callback at exactly 600000 ms fires the stop once and
has already torn the interval down. -/
theorem c4_auto_stop_exactly_once_witness :
    countFires (run initState [Input.evStarted 0]) [600000] = 1 ∧
    (timerTick (run initState [Input.evStarted 0]) 600000).1.timerIntervalRef = none := by
  refine ⟨(c4_auto_stop_exactly_once [600000]).2.1 ⟨600000, by simp, by norm_num⟩, ?_⟩
  exact ((c4_auto_stop_exactly_once [600000]).2.2 _ 600000 (by decide)).1

/-- Live-interval bookkeeping invariant: the list of live `setInterval`
handles is exactly the one stored in `timerIntervalRef`, so at most one
interval is ever live. -/
def IntervalsInv (s : PopupState) : Prop :=
  s.intervals = s.timerIntervalRef.toList

lemma intervalsInv_cleanup (s : PopupState) (h : IntervalsInv s) :
    IntervalsInv (cleanupTimer s) := by
  unfold IntervalsInv at *
  rcases s with ⟨r, tr, e, a, el, st, ref, ints, n⟩
  rcases ref with _ | id
  · exact h
  · simp only [Option.toList] at h
    subst h
    show List.erase [id] id = Option.toList none
    simp

lemma startTimer_spec (s : PopupState) (t : ℤ) (h : IntervalsInv s) :
    IntervalsInv (startTimer s t) ∧ (startTimer s t).intervals.length = 1 := by
  have hc := intervalsInv_cleanup s h
  have hints : (cleanupTimer s).intervals = [] := by
    unfold IntervalsInv at hc
    rw [cleanupTimer_ref s] at hc
    simpa using hc
  constructor
  · unfold IntervalsInv
    show (cleanupTimer s).intervals ++ [(cleanupTimer s).nextId]
        = Option.toList (some (cleanupTimer s).nextId)
    rw [hints]
    rfl
  · show ((cleanupTimer s).intervals ++ [(cleanupTimer s).nextId]).length = 1
    rw [hints]
    rfl

lemma intervalsInv_step (s : PopupState) (i : Input) (h : IntervalsInv s) :
    IntervalsInv (step s i).1 := by
  cases i with
  | evStarted t =>
      exact (startTimer_spec
        { s with recording := true, transcribing := false, error := none } t h).1
  | evTranscribing => exact intervalsInv_cleanup _ h
  | evStopped => exact intervalsInv_cleanup _ h
  | evCancelled => exact intervalsInv_cleanup _ h
  | evError p => exact h
  | evAudioLevel level => exact h
  | actCancel b => exact h
  | actStop b => exact h
  | actRetry b => exact h
  | actDismiss b => exact h
  | tick t =>
      show IntervalsInv (timerTick s t).1
      rcases hst : s.startTime with _ | st
      · rw [timerTick_none s t hst]
        exact h
      · rw [timerTick_some s t st hst]
        by_cases hle : max 0 (MAX_RECORDING_DURATION_MS - (t - st)) ≤ 0
        · rw [if_pos hle]
          exact intervalsInv_cleanup _ h
        · rw [if_neg hle]
          exact h

lemma run_started_length : ∀ (times : List ℤ) (t : ℤ) (s : PopupState),
    IntervalsInv s →
    (run s ((t :: times).map Input.evStarted)).intervals.length = 1 := by
  intro times
  induction times with
  | nil =>
      intro t s hs
      exact (startTimer_spec
        { s with recording := true, transcribing := false, error := none } t hs).2
  | cons t2 rest ih =>
      intro t s hs
      exact ih t2 _ (intervalsInv_step s (Input.evStarted t) hs)

/-- Claim C5: starting a new countdown always tears the previous one down
first, so after any nonempty sequence of `recording-started` events exactly
one interval is live, and over any subsequent sequence of callback
invocations the auto-stop `stop()` fires at most once. -/
theorem c5_at_most_one_interval (times : List ℤ) (hne : times ≠ []) :
    (run initState (times.map Input.evStarted)).intervals.length = 1 ∧
    ∀ ts : List ℤ, countFires (run initState (times.map Input.evStarted)) ts ≤ 1 := by
  rcases times with _ | ⟨t, rest⟩
  · exact absurd rfl hne
  · exact ⟨run_started_length rest t initState rfl, fun ts => countFires_le_one ts _⟩

/-- Witness for C5: two consecutive `recording-started` events leave exactly
one live interval, and a later expiry tick fires at most one stop. -/
theorem c5_at_most_one_interval_witness :
    (run initState ([0, 5].map Input.evStarted)).intervals.length = 1 ∧
    countFires (run initState ([0, 5].map Input.evStarted)) [600005] ≤ 1 :=
  ⟨(c5_at_most_one_interval [0, 5] (by simp)).1,
    (c5_at_most_one_interval [0, 5] (by simp)).2 [600005]⟩

lemma smoothStep_eq_rise (s : ℚ) (h : s < 1) :
    smoothStep 1 s = s + (1 - s) * (3/10) := by
  simp only [smoothStep]
  rw [if_pos (by linarith : (0:ℚ) < 1 - s)]

lemma smoothStep_eq_fall (s : ℚ) (h : 0 < s) :
    smoothStep 0 s = s + (0 - s) * (3/20) := by
  simp only [smoothStep]
  rw [if_neg (by intro hc; linarith : ¬ (0:ℚ) < 0 - s)]

lemma smoothedRise_closed (n : ℕ) : smoothedRise n = 1 - (7/10 : ℚ) ^ n := by
  induction n with
  | zero => simp [smoothedRise]
  | succ n ih =>
      have hq : (0:ℚ) < (7/10 : ℚ) ^ n := pow_pos (by norm_num) n
      have hlt : smoothedRise n < 1 := by
        rw [ih]
        linarith
      rw [show smoothedRise (n + 1) = smoothStep 1 (smoothedRise n) from rfl,
        smoothStep_eq_rise _ hlt, ih]
      ring

/-- Claim C6: the smoothing update is `smoothed += (raw - smoothed) * rate`
with rate 3/10 when the signal rises and 3/20 when it falls; after the raw
level jumps from 0 to 1 the smoothed value strictly increases on every
tick, stays strictly below 1 (no overshoot) and approaches 1 within any
positive margin; after a drop from 1 back to 0 the per-tick rate 3/20 is
strictly smaller than the rise rate 3/10. -/
theorem c6_attack_decay (n : ℕ) (ε : ℚ) (hε : 0 < ε)
    (s : ℚ) (h0 : 0 < s) (h1 : s < 1) :
    smoothedRise n < smoothedRise (n + 1) ∧
    smoothedRise n < 1 ∧
    (∃ N : ℕ, ∀ m : ℕ, N ≤ m → 1 - smoothedRise m < ε) ∧
    smoothStep 1 s = s + (1 - s) * (3/10) ∧
    smoothStep 0 s = s + (0 - s) * (3/20) ∧
    (3 : ℚ)/20 < 3/10 := by
  have hq : ∀ k : ℕ, (0:ℚ) < (7/10 : ℚ) ^ k := fun k => pow_pos (by norm_num) k
  refine ⟨?_, ?_, ?_, smoothStep_eq_rise s h1, smoothStep_eq_fall s h0, by norm_num⟩
  · rw [smoothedRise_closed, smoothedRise_closed]
    have h3 : (7/10:ℚ) ^ (n + 1) < (7/10:ℚ) ^ n := by
      rw [pow_succ]
      nlinarith [hq n]
    linarith
  · rw [smoothedRise_closed]
    linarith [hq n]
  · obtain ⟨N, hN⟩ := exists_pow_lt_of_lt_one hε (by norm_num : (7/10:ℚ) < 1)
    refine ⟨N, fun m hm => ?_⟩
    rw [smoothedRise_closed]
    have hle : (7/10:ℚ) ^ m ≤ (7/10:ℚ) ^ N :=
      pow_le_pow_of_le_one (by norm_num) (by norm_num) hm
    linarith

/-- Witness for C6 at tick 3, margin 1/2 and falling level 1/2. -/
theorem c6_attack_decay_witness :
    smoothedRise 3 < smoothedRise 4 ∧
    smoothedRise 3 < 1 ∧
    (∃ N : ℕ, ∀ m : ℕ, N ≤ m → 1 - smoothedRise m < (1/2 : ℚ)) ∧
    smoothStep 1 (1/2) = 1/2 + (1 - 1/2) * (3/10) ∧
    smoothStep 0 (1/2) = 1/2 + (0 - 1/2) * (3/20) ∧
    (3 : ℚ)/20 < 3/10 :=
  c6_attack_decay 3 (1/2) (by norm_num) (1/2) (by norm_num) (by norm_num)

/-- Smoothed level after processing a sequence of per-tick raw levels,
starting from the initial smoothed level 0 (each animation tick applies the
`animate` update with the raw level current at that frame). -/
def smoothedAfter (raws : List ℚ) : ℚ :=
  raws.foldl (fun current raw => smoothStep raw current) 0

lemma smoothStep_bounds (raw c : ℚ) (hr0 : 0 ≤ raw) (hr1 : raw ≤ 1)
    (hc0 : 0 ≤ c) (hc1 : c ≤ 1) :
    0 ≤ smoothStep raw c ∧ smoothStep raw c ≤ 1 := by
  simp only [smoothStep]
  by_cases h : (0:ℚ) < raw - c
  · rw [if_pos h]
    constructor
    · nlinarith
    · nlinarith
  · rw [if_neg h]
    push_neg at h
    constructor
    · nlinarith
    · nlinarith

lemma foldl_smooth_bounds (raws : List ℚ) : ∀ c : ℚ, 0 ≤ c → c ≤ 1 →
    (∀ r ∈ raws, 0 ≤ r ∧ r ≤ 1) →
    0 ≤ raws.foldl (fun current raw => smoothStep raw current) c ∧
      raws.foldl (fun current raw => smoothStep raw current) c ≤ 1 := by
  induction raws with
  | nil =>
      intro c h0 h1 _
      exact ⟨h0, h1⟩
  | cons r rest ih =>
      intro c h0 h1 hr
      have hrr := hr r (List.mem_cons_self r rest)
      have hs := smoothStep_bounds r c hrr.1 hrr.2 h0 h1
      simpa using ih (smoothStep r c) hs.1 hs.2
        (fun x hx => hr x (List.mem_cons_of_mem r hx))

/-- Claim C9: if every raw audio level received is in [0, 1] and the
smoothed level starts at 0, then the per-tick update (rates 3/10 and 3/20,
both strictly between 0 and 1) keeps the smoothed level within [0, 1] over
every sequence of animation ticks. -/
theorem c9_smoothed_level_in_unit_interval (raws : List ℚ)
    (h : ∀ r ∈ raws, 0 ≤ r ∧ r ≤ 1) :
    0 ≤ smoothedAfter raws ∧ smoothedAfter raws ≤ 1 :=
  foldl_smooth_bounds raws 0 le_rfl (by norm_num) h

/-- Witness for C9 on the raw-level sequence 1, 1/2, 0. -/
theorem c9_smoothed_level_in_unit_interval_witness :
    0 ≤ smoothedAfter [1, 1/2, 0] ∧ smoothedAfter [1, 1/2, 0] ≤ 1 :=
  c9_smoothed_level_in_unit_interval [1, 1/2, 0]
    (by intro r hr; fin_cases hr <;> norm_num)

end Dictara
